import Mathlib

/-
Verification of the type-erased callable wrapper in
src/functional/my_function_4.cc.

The C++ class Function<Ret(Args...)> owns a nullable unique_ptr to an
erased adapter (detail::function_impl_base). Adapters live on the heap
(make_unique / clone allocate), each adapter stores one payload value
callable_ by value, and the virtual operator() may mutate that stored
payload (it is a non-const member).

Shallow embedding:
  * Heap A     : the allocation store of adapters of type A; an address is
                 a list index, and each allocation appends at the end.
                 Deallocation is not modelled: no operation of the class
                 ever reads a released address, so a grow-only store is
                 observationally equivalent for every property below.
  * ImplPtr    : the field unique_ptr<implementation> impl_base_, i.e. a
                 nullable owning pointer, modelled as Option Nat.
  * inv        : the virtual dispatch of operator(): one function
                 A -> args -> result x A giving the returned value and the
                 possibly mutated adapter. Each func_impl specialization
                 fixes its own inv (see the detail namespace).
  * Fault      : the two abnormal terminations that the wrapper itself can
                 produce: dereferencing a null impl_base_ (undefined
                 behavior, in the copy constructor) and the assert in
                 operator(). invalidAddr covers reading a nonexistent heap
                 address; it is unreachable from the public operations.
-/

namespace MyFunction4

/-- Allocation store for erased adapters of type A. An address is an index;
make_unique and clone allocate a fresh cell at the end. -/
abbrev Heap (A : Type) := List A

/-- Nullable owning pointer: the field unique_ptr<implementation> impl_base_
of Function<Ret(Args...)> (line 173 of my_function_4.cc). -/
abbrev ImplPtr := Option Nat

/-- Abnormal terminations of the wrapper itself: null dereference in the
copy constructor, the assert in the call operator, and (unreachable from
the public operations) a read of a nonexistent heap address. -/
inductive Fault where
  | nullDeref
  | assertFailure
  | invalidAddr
deriving DecidableEq

/-- Function() = default (line 131): impl_base_ = nullptr, the empty handle. -/
def Function.defaultCtor : ImplPtr := none

/-- Function(Callable f) (lines 156-159): allocates a fresh adapter holding a
copy of the payload via make_unique, and owns it. -/
def Function.ofCallable {A : Type} (h : Heap A) (f : A) : Heap A × ImplPtr :=
  (h ++ [f], some h.length)

/-- Function(const Function& other) (lines 134-137):
this->impl_base_.reset(other.impl_base_->clone()). The arrow on
other.impl_base_ is applied unconditionally, so an empty source is a null
dereference. On a non-empty source, clone() is new func_impl(*this): a fresh
adapter copy-constructed from the adapter of the source. -/
def Function.copyCtor {A : Type} (h : Heap A) (other : ImplPtr) :
    Except Fault (Heap A × ImplPtr) :=
  match other with
  | none => .error .nullDeref
  | some a =>
    match h[a]? with
    | none => .error .invalidAddr
    | some v => .ok (h ++ [v], some h.length)

/-- Function& operator=(Function other) (lines 140-144). The parameter is
taken by value, so the copy constructor runs first on the source; then
this->impl_base_.reset(other.impl_base_.release()) makes this own the clone
held by the parameter and destroys the previously owned adapter of this.
The source handle at the call site is never modified. -/
def Function.copyAssign {A : Type} (h : Heap A) (_self other : ImplPtr) :
    Except Fault (Heap A × ImplPtr) :=
  match Function.copyCtor h other with
  | .error e => .error e
  | .ok (h2, param) => .ok (h2, param)

/-- operator=(Callable cb) (lines 146-152): impl_base_ =
make_unique<func_impl>(move(cb)); the previously owned adapter (if any) is
destroyed and replaced wholesale by a fresh adapter holding the new payload. -/
def Function.assignCallable {A : Type} (h : Heap A) (_self : ImplPtr) (cb : A) :
    Heap A × ImplPtr :=
  (h ++ [cb], some h.length)

/-- Ret operator()(Args&&... args) (lines 161-165): assert(impl_base_.get())
then (*impl_base_)(forward<Args>(args)...). inv is the virtual operator() of
the owned adapter; it may mutate the adapter in place (non-const member), so
the heap cell of the called adapter is updated. -/
def Function.call {A α ρ : Type} (inv : A → α → ρ × A) (h : Heap A)
    (self : ImplPtr) (arg : α) : Except Fault (ρ × Heap A) :=
  match self with
  | none => .error .assertFailure
  | some a =>
    match h[a]? with
    | none => .error .invalidAddr
    | some v => .ok ((inv v arg).1, h.set a (inv v arg).2)

/-- explicit operator bool() (lines 167-170): impl_base_ != nullptr. -/
def Function.toBool (self : ImplPtr) : Bool := self.isSome

/-- Sequence of n successive invocations of one handle with the same
argument, collecting the returned values; state flows through the heap. -/
def Function.callTimes {A α ρ : Type} (inv : A → α → ρ × A) (h : Heap A)
    (self : ImplPtr) (arg : α) : Nat → Except Fault (List ρ × Heap A)
  | 0 => .ok ([], h)
  | n + 1 =>
    match Function.call inv h self arg with
    | .error e => .error e
    | .ok (r, h2) =>
      match Function.callTimes inv h2 self arg n with
      | .error e => .error e
      | .ok (rs, h3) => .ok (r :: rs, h3)

namespace detail

/-- func_impl<Ret(Args...), Ret(*)(Args...)>::operator() (lines 42-45):
callable_(forward<Args>(args)...). A function pointer has no mutable state,
so the stored payload is returned unchanged. -/
def funcPtrInvoke {α ρ : Type} (f : α → ρ) (a : α) : ρ × (α → ρ) := (f a, f)

/-- func_impl<Ret(Args...), Functor>::operator() (lines 70-73):
callable_(forward<Args>(args)...) on the stored functor, which is held
non-const: op is the call operator of the functor, returning the result and
the possibly mutated functor state. -/
def functorInvoke {φ α ρ : Type} (op : φ → α → ρ × φ) (f : φ) (a : α) :
    ρ × φ := op f a

/-- func_impl<Ret(Args...), Member Class::*>::operator() (lines 99-108):
operator()(args...) forwards to call(obj, params...), which evaluates
mem_fn(callable_)(obj, params...): the first argument is the receiver and
the member function m runs on it with the remaining arguments. -/
def memFnInvoke {σ β ρ : Type} (m : σ → β → ρ) (p : σ × β) :
    ρ × (σ → β → ρ) := (m p.1 p.2, m)

end detail

/-- int foo_ex1() { return 42; } (line 179). -/
def foo_ex1 : Unit → Int := fun _ => 42

/-- int foo_ex2() { return 43; } (line 180). -/
def foo_ex2 : Unit → Int := fun _ => 43

/-- void foo_void(int& val) { val++; } (line 182), modelled on the value of
the referenced variable: the call maps the old value of val to the new one. -/
def foo_void : Int → Int := fun v => v + 1

/-- struct LargeFunctor (lines 196-201): a functor owning a std::string
field repr_ by value. -/
structure LargeFunctor where
  repr_ : String
deriving DecidableEq

/-- LargeFunctor::operator()() const { return repr_; } (lines 197-199). -/
def LargeFunctor.callOp (f : LargeFunctor) (_u : Unit) :
    String × LargeFunctor := (f.repr_, f)

/-- List cell untouched by writing back the value it already holds. -/
theorem set_getElem_eq_self {A : Type} (l : List A) (a : Nat) (v : A)
    (hget : l[a]? = some v) : l.set a v = l := by
  induction l generalizing a with
  | nil => simp at hget
  | cons x xs ih =>
    cases a with
    | zero => simp_all
    | succ n =>
      simp only [List.getElem?_cons_succ] at hget
      simp [List.set, ih n hget]

/-- Reading the freshly allocated cell gives the allocated value. -/
theorem getElem_concat_len {A : Type} (l : List A) (v : A) :
    (l ++ [v])[l.length]? = some v := by
  induction l with
  | nil => rfl
  | cons x xs ih => simp [ih]

/-- Writing the freshly allocated cell replaces the allocated value. -/
theorem set_concat_len {A : Type} (l : List A) (v w : A) :
    (l ++ [v]).set l.length w = l ++ [w] := by
  induction l with
  | nil => rfl
  | cons x xs ih => simp [List.set, ih]

/-- Repeated invocation of a handle whose adapter never mutates its stored
payload (for instance a function-pointer adapter) returns the same value on
every call and leaves the heap unchanged. -/
theorem callTimes_stateless {A α ρ : Type} (inv : A → α → ρ × A)
    (hpure : ∀ v a, (inv v a).2 = v) (h : Heap A) (a : Nat) (v : A)
    (hget : h[a]? = some v) (arg : α) (n : Nat) :
    Function.callTimes inv h (some a) arg n
      = .ok (List.replicate n (inv v arg).1, h) := by
  induction n with
  | zero => simp [Function.callTimes]
  | succ n ih =>
    have hset : h.set a (inv v arg).2 = h := by
      rw [hpure]
      exact set_getElem_eq_self h a v hget
    simp [Function.callTimes, Function.call, hget, hset, ih,
      List.replicate_succ]

/-- C1: the claim states that copy construction and copy assignment from an
empty Function handle each produce an empty handle. The code instead
executes other.impl_base_->clone() unconditionally (line 136), so an empty
source is dereferenced as a null pointer; copy assignment copies its
parameter by value through that same constructor (line 140) and faults the
same way. This theorem evaluates both operations at the failing input, an
empty source handle. -/
theorem c1_copy_from_empty_faults :
    Function.copyCtor ([] : Heap (Unit → Int)) Function.defaultCtor
      = .error .nullDeref ∧
    Function.copyAssign ([] : Heap (Unit → Int)) Function.defaultCtor
      Function.defaultCtor = .error .nullDeref :=
  ⟨rfl, rfl⟩

/-- C4: invoking an empty handle hits the assert in operator() (line 163),
while for a handle holding an adapter the call goes through to the adapter
and the error branch is unreachable: the result is the value returned by
the virtual operator() of the adapter. -/
theorem c4_empty_call_asserts {A α ρ : Type} (inv : A → α → ρ × A)
    (h : Heap A) (arg : α) (a : Nat) (v : A) (hget : h[a]? = some v) :
    Function.call inv h Function.defaultCtor arg = .error .assertFailure ∧
    Function.call inv h (some a) arg
      = .ok ((inv v arg).1, h.set a (inv v arg).2) := by
  refine ⟨rfl, ?_⟩
  simp [Function.call, hget]

/-- C4 witness: on a concrete heap holding the adapter for foo_ex1, calling
the empty handle asserts and calling the handle at address 0 returns 42. -/
theorem c4_empty_call_asserts_witness :
    Function.call detail.funcPtrInvoke [foo_ex1] Function.defaultCtor ()
      = .error .assertFailure ∧
    Function.call detail.funcPtrInvoke [foo_ex1] (some 0) ()
      = .ok ((detail.funcPtrInvoke foo_ex1 ()).1,
             ([foo_ex1] : Heap (Unit → Int)).set 0
               (detail.funcPtrInvoke foo_ex1 ()).2) :=
  c4_empty_call_asserts detail.funcPtrInvoke [foo_ex1] () 0 foo_ex1 rfl

/-- C5: a handle wrapping a pointer-to-member-function m, invoked with an
argument list whose first component is the receiver recv and whose rest is
b, produces exactly m recv b, the result of calling the member directly on
that receiver; the adapter (holding only the member pointer) is unchanged. -/
theorem c5_member_dispatch {σ β ρ : Type} (m : σ → β → ρ)
    (h : Heap (σ → β → ρ)) (recv : σ) (b : β) :
    Function.call detail.memFnInvoke (Function.ofCallable h m).1
      (Function.ofCallable h m).2 (recv, b)
      = .ok (m recv b, (Function.ofCallable h m).1) := by
  simp [Function.call, Function.ofCallable, detail.memFnInvoke,
    getElem_concat_len, set_concat_len]

/-- C7: a plain function returning the fixed value c, wrapped through the
function-pointer adapter and invoked through the handle, returns exactly c;
the function-pointer adapter is stateless so the heap is unchanged. -/
theorem c7_plain_function_round_trip {ρ : Type} (c : ρ)
    (h : Heap (Unit → ρ)) :
    Function.call detail.funcPtrInvoke (Function.ofCallable h (fun _ => c)).1
      (Function.ofCallable h (fun _ => c)).2 ()
      = .ok (c, h ++ [fun _ => c]) := by
  simp [Function.call, Function.ofCallable, detail.funcPtrInvoke,
    getElem_concat_len, set_concat_len]

/-- C8: for a function g that mutates its by-reference int argument
(modelled as the map from the old value of the referenced variable to the
new one), calling it through the handle applies exactly g to the referenced
variable, the same externally visible mutation as the direct call g i; in
particular foo_void, which increments its argument, takes 41 to 42 through
the wrapper exactly as the direct call foo_void 41 = 42 does. -/
theorem c8_ref_mutation_parity (g : Int → Int) (h : Heap (Int → Int))
    (i : Int) :
    Function.call detail.funcPtrInvoke (Function.ofCallable h g).1
      (Function.ofCallable h g).2 i = .ok (g i, (Function.ofCallable h g).1) ∧
    foo_void 41 = 42 ∧
    Function.call detail.funcPtrInvoke (Function.ofCallable h foo_void).1
      (Function.ofCallable h foo_void).2 41
      = .ok (42, (Function.ofCallable h foo_void).1) := by
  refine ⟨?_, rfl, ?_⟩ <;>
    simp [Function.call, Function.ofCallable, detail.funcPtrInvoke,
      getElem_concat_len, set_concat_len, foo_void]

/-- C9: a default-constructed handle reports empty through operator bool
(impl_base_ is nullptr), and after any assignment of a payload — through
operator=(Callable) or the payload constructor — the handle reports
non-empty, since both install a freshly allocated adapter. -/
theorem c9_emptiness_invariant {A : Type} (h : Heap A) (self : ImplPtr)
    (cb : A) :
    Function.toBool Function.defaultCtor = false ∧
    Function.toBool (Function.assignCallable h self cb).2 = true ∧
    Function.toBool (Function.ofCallable h cb).2 = true :=
  ⟨rfl, rfl, rfl⟩

/-- C2: copying a non-empty handle produces an independently owned deep
copy. Copy construction from the handle at address a1 allocates a fresh
cell (address h.length, distinct from a1) holding a copy of the payload
value v1; invoking the original handle rewrites only its own cell, so the
cell of the copy still holds v1 afterwards, and the value returned by
invoking the copy is (inv v1 arg2).1 both before and after the original is
invoked. Independence from the original functor variable is by-value
capture: the stored payload is the copy v1 taken at construction time, and
every result below depends only on v1 (the concrete string scenario of the
spec is the witness). -/
theorem c2_deep_copy_independence {A α ρ : Type} (inv : A → α → ρ × A)
    (h : Heap A) (a1 : Nat) (v1 : A) (hget : h[a1]? = some v1)
    (arg1 arg2 : α) :
    Function.copyCtor h (some a1) = .ok (h ++ [v1], some h.length) ∧
    (h ++ [v1])[h.length]? = some v1 ∧
    Function.call inv (h ++ [v1]) (some a1) arg1
      = .ok ((inv v1 arg1).1, (h ++ [v1]).set a1 (inv v1 arg1).2) ∧
    ((h ++ [v1]).set a1 (inv v1 arg1).2)[h.length]? = some v1 ∧
    Function.call inv (h ++ [v1]) (some h.length) arg2
      = .ok ((inv v1 arg2).1, (h ++ [v1]).set h.length (inv v1 arg2).2) ∧
    Function.call inv ((h ++ [v1]).set a1 (inv v1 arg1).2)
        (some h.length) arg2
      = .ok ((inv v1 arg2).1,
          ((h ++ [v1]).set a1 (inv v1 arg1).2).set h.length
            (inv v1 arg2).2) := by
  have hlt : a1 < h.length := (List.getElem?_eq_some.mp hget).1
  have hne : a1 ≠ h.length := Nat.ne_of_lt hlt
  have hca1 : (h ++ [v1])[a1]? = some v1 := by
    rw [List.getElem?_append_left hlt]
    exact hget
  have hlen : (h ++ [v1])[h.length]? = some v1 := getElem_concat_len h v1
  have hlen2 : ((h ++ [v1]).set a1 (inv v1 arg1).2)[h.length]? = some v1 := by
    rw [List.getElem?_set_ne hne]
    exact hlen
  refine ⟨?_, hlen, ?_, hlen2, ?_, ?_⟩
  · simp [Function.copyCtor, hget]
  · simp [Function.call, hca1]
  · simp [Function.call, hlen]
  · simp [Function.call, hlen2]

/-- C2 witness: the spec scenario. A LargeFunctor holding the string
"LargeFunctorString" is wrapped (heap cell 0); the handle is copied (fresh
cell 1 holding its own copy of the functor); the copy returns
"LargeFunctorString" before and after the original handle is invoked, and
that captured result differs from "Silmarillion", the value the original
functor variable is mutated to in the test. -/
theorem c2_deep_copy_independence_witness :
    (Function.copyCtor [LargeFunctor.mk "LargeFunctorString"] (some 0)
        = .ok ([⟨"LargeFunctorString"⟩, ⟨"LargeFunctorString"⟩], some 1) ∧
      ([LargeFunctor.mk "LargeFunctorString"] ++
          [LargeFunctor.mk "LargeFunctorString"])[1]?
        = some ⟨"LargeFunctorString"⟩ ∧
      Function.call LargeFunctor.callOp
          [⟨"LargeFunctorString"⟩, ⟨"LargeFunctorString"⟩] (some 0) ()
        = .ok ("LargeFunctorString",
            [⟨"LargeFunctorString"⟩, ⟨"LargeFunctorString"⟩]) ∧
      ([(⟨"LargeFunctorString"⟩ : LargeFunctor),
          ⟨"LargeFunctorString"⟩] : Heap LargeFunctor)[1]?
        = some ⟨"LargeFunctorString"⟩ ∧
      Function.call LargeFunctor.callOp
          [⟨"LargeFunctorString"⟩, ⟨"LargeFunctorString"⟩] (some 1) ()
        = .ok ("LargeFunctorString",
            [⟨"LargeFunctorString"⟩, ⟨"LargeFunctorString"⟩]) ∧
      Function.call LargeFunctor.callOp
          [⟨"LargeFunctorString"⟩, ⟨"LargeFunctorString"⟩] (some 1) ()
        = .ok ("LargeFunctorString",
            [⟨"LargeFunctorString"⟩, ⟨"LargeFunctorString"⟩])) ∧
    ("LargeFunctorString" : String) ≠ "Silmarillion" :=
  ⟨c2_deep_copy_independence LargeFunctor.callOp
      [⟨"LargeFunctorString"⟩] 0 ⟨"LargeFunctorString"⟩ rfl () (),
    by decide⟩

/-- C3: reassigning a handle that already holds a payload fully discards
the old payload. Copy assignment from the handle at address a2 installs a
fresh clone of its adapter value v2 and drops the previously owned adapter
of the target; every subsequent call returns the value computed from v2
alone (for a stateless adapter such as a function pointer, every one of n
subsequent calls returns that same value). Direct assignment of a payload
cb through the template assignment operator behaves the same way with cb. -/
theorem c3_reassignment_replaces {A α ρ : Type} (inv : A → α → ρ × A)
    (hpure : ∀ v a, (inv v a).2 = v) (h : Heap A) (self : ImplPtr)
    (a2 : Nat) (v2 : A) (hget : h[a2]? = some v2) (cb : A) (arg : α)
    (n : Nat) :
    Function.copyAssign h self (some a2) = .ok (h ++ [v2], some h.length) ∧
    Function.callTimes inv (h ++ [v2]) (some h.length) arg n
      = .ok (List.replicate n (inv v2 arg).1, h ++ [v2]) ∧
    Function.callTimes inv (Function.assignCallable h self cb).1
        (Function.assignCallable h self cb).2 arg n
      = .ok (List.replicate n (inv cb arg).1, h ++ [cb]) := by
  refine ⟨?_, ?_, ?_⟩
  · simp [Function.copyAssign, Function.copyCtor, hget]
  · exact callTimes_stateless inv hpure (h ++ [v2]) h.length v2
      (getElem_concat_len h v2) arg n
  · exact callTimes_stateless inv hpure (h ++ [cb]) h.length cb
      (getElem_concat_len h cb) arg n

/-- C3 witness: the scenario of the test block at lines 221-227. The heap
holds the adapters of f1 = foo_ex1 (cell 0) and f2(foo_ex2) (cell 1);
f1 = f2 clones cell 1 into fresh cell 2, and two subsequent calls of f1
both return 43, while direct reassignment to foo_ex1 yields 42 on both
subsequent calls. -/
theorem c3_reassignment_replaces_witness :
    Function.copyAssign [foo_ex1, foo_ex2] (some 0) (some 1)
      = .ok ([foo_ex1, foo_ex2, foo_ex2], some 2) ∧
    Function.callTimes detail.funcPtrInvoke [foo_ex1, foo_ex2, foo_ex2]
        (some 2) () 2 = .ok ([43, 43], [foo_ex1, foo_ex2, foo_ex2]) ∧
    Function.callTimes detail.funcPtrInvoke [foo_ex1, foo_ex2, foo_ex1]
        (some 2) () 2 = .ok ([42, 42], [foo_ex1, foo_ex2, foo_ex1]) :=
  c3_reassignment_replaces detail.funcPtrInvoke (fun _ _ => rfl)
    [foo_ex1, foo_ex2] (some 0) 1 foo_ex2 rfl foo_ex1 () 2

/-- C6: the wrapper passes the result of the payload through verbatim.
Invoking a non-empty handle delivers exactly the value produced by the
payload — here with a failure-carrying result type Except E R, so when the
payload raises the failure e, the caller receives that same failure e,
unchanged in kind and content; operator() (lines 161-165) and the functor
adapter (lines 70-73) contain no handler, translation or suppression. -/
theorem c6_failure_propagation {A α E R : Type}
    (inv : A → α → Except E R × A) (h : Heap A) (a : Nat) (v : A)
    (hget : h[a]? = some v) (arg : α) (e : E)
    (herr : (inv v arg).1 = Except.error e) :
    Function.call inv h (some a) arg
      = .ok ((inv v arg).1, h.set a (inv v arg).2) ∧
    Function.call inv h (some a) arg
      = .ok (Except.error e, h.set a (inv v arg).2) := by
  constructor
  · simp [Function.call, hget]
  · simp [Function.call, hget, herr]

/-- C6 witness: a payload that always raises the failure "boom" is wrapped
at heap cell 0; the call through the handle delivers exactly that failure. -/
theorem c6_failure_propagation_witness :
    Function.call detail.funcPtrInvoke
        [fun _ => (Except.error "boom" : Except String Int)] (some 0) ()
      = .ok (Except.error "boom",
          [fun _ => (Except.error "boom" : Except String Int)]) ∧
    Function.call detail.funcPtrInvoke
        [fun _ => (Except.error "boom" : Except String Int)] (some 0) ()
      = .ok (Except.error "boom",
          [fun _ => (Except.error "boom" : Except String Int)]) :=
  c6_failure_propagation detail.funcPtrInvoke
    [fun _ => (Except.error "boom" : Except String Int)] 0
    (fun _ => (Except.error "boom" : Except String Int)) rfl () "boom" rfl

/-- C10: copy assignment does not disturb its source. The by-value
parameter of operator=(Function) is copy-constructed from the source, so
the source handle keeps its pointer (the model never produces a modified
version of it), it still reports non-empty, its heap cell still holds the
same adapter value v2 after the assignment, and invoking it returns the
same value (inv v2 arg).1 before and after. -/
theorem c10_copy_assign_frame {A α ρ : Type} (inv : A → α → ρ × A)
    (h : Heap A) (self : ImplPtr) (a2 : Nat) (v2 : A)
    (hget : h[a2]? = some v2) (arg : α) :
    Function.copyAssign h self (some a2) = .ok (h ++ [v2], some h.length) ∧
    Function.toBool (some a2) = true ∧
    (h ++ [v2])[a2]? = some v2 ∧
    Function.call inv h (some a2) arg
      = .ok ((inv v2 arg).1, h.set a2 (inv v2 arg).2) ∧
    Function.call inv (h ++ [v2]) (some a2) arg
      = .ok ((inv v2 arg).1, (h ++ [v2]).set a2 (inv v2 arg).2) := by
  have hlt : a2 < h.length := (List.getElem?_eq_some.mp hget).1
  have hca2 : (h ++ [v2])[a2]? = some v2 := by
    rw [List.getElem?_append_left hlt]
    exact hget
  refine ⟨?_, rfl, hca2, ?_, ?_⟩
  · simp [Function.copyAssign, Function.copyCtor, hget]
  · simp [Function.call, hget]
  · simp [Function.call, hca2]

/-- C10 witness: assigning f2 (cell 1, wrapping foo_ex2) into f1 (cell 0)
clones cell 1 into a fresh cell 2; f2 still points at cell 1, reports
non-empty, and returns 43 before and after the assignment. -/
theorem c10_copy_assign_frame_witness :
    Function.copyAssign [foo_ex1, foo_ex2] (some 0) (some 1)
      = .ok ([foo_ex1, foo_ex2, foo_ex2], some 2) ∧
    Function.toBool (some 1) = true ∧
    ([foo_ex1, foo_ex2] ++ [foo_ex2])[1]? = some foo_ex2 ∧
    Function.call detail.funcPtrInvoke [foo_ex1, foo_ex2] (some 1) ()
      = .ok (43, [foo_ex1, foo_ex2]) ∧
    Function.call detail.funcPtrInvoke [foo_ex1, foo_ex2, foo_ex2]
        (some 1) () = .ok (43, [foo_ex1, foo_ex2, foo_ex2]) :=
  c10_copy_assign_frame detail.funcPtrInvoke [foo_ex1, foo_ex2] (some 0)
    1 foo_ex2 rfl ()

end MyFunction4
